import Mathlib

/-!
Verification of the eris-cacher event-driven cache synchronization layer.

Embedded source:
* src/src/cache.ts — the Cache interface (get, set, delete, find, close).
* src/unnamed/part_000 — the cachers: UserCacher, ChannelCacher, MemberCacher,
  GuildCacher and RoleCacher. Each subscribes handlers on an eris Client at
  construction, mirrors events into the cache, and detaches its handlers in
  close before delegating to SimpleCacher.close, which closes the cache.
-/

/-- A user entity: snowflake id plus opaque payload content. -/
structure User where
  id : String
  data : String
deriving DecidableEq

/-- A channel entity: snowflake id, integer channel type, opaque payload content. -/
structure Channel where
  id : String
  type : Int
  data : String
deriving DecidableEq

/-- A member entity: snowflake id (unique only within a guild) plus payload content. -/
structure Member where
  id : String
  data : String
deriving DecidableEq

/-- A guild entity: snowflake id plus opaque payload content. -/
structure Guild where
  id : String
  data : String
deriving DecidableEq

/-- A role entity: snowflake id plus opaque payload content. -/
structure Role where
  id : String
  data : String
deriving DecidableEq

/-- Modelled from the spec: the repository declares only the Cache interface
(src/src/cache.ts) and ships no concrete backend, so this is the canonical
in-memory model of the documented contract — an association list from string
keys to values with at most one entry per key. -/
abbrev CacheMap (V : Type) : Type := List (String × V)

/-- Modelled from the spec: Cache.delete removes any entry under the key and
is a no-op when the key is absent. -/
def cdel {V : Type} : CacheMap V → String → CacheMap V
  | [], _ => []
  | kv :: rest, k => if kv.1 = k then cdel rest k else kv :: cdel rest k

/-- Modelled from the spec: Cache.set stores the value under the key,
overwriting any existing entry for that key. -/
def cset {V : Type} (c : CacheMap V) (k : String) (v : V) : CacheMap V :=
  (k, v) :: cdel c k

/-- Modelled from the spec: Cache.get returns the value stored under the key,
with absence reported as none. -/
def cget {V : Type} : CacheMap V → String → Option V
  | [], _ => none
  | kv :: rest, k => if kv.1 = k then some kv.2 else cget rest k

/-- A cache mutation performed by a handler: a set or delete call of the Cache
contract, recorded with its arguments. -/
inductive CacheOp (V : Type) where
  | set (key : String) (value : V)
  | del (key : String)
deriving DecidableEq

/-- Run one recorded cache call against the cache model. -/
def applyOp {V : Type} (c : CacheMap V) : CacheOp V → CacheMap V
  | CacheOp.set k v => cset c k v
  | CacheOp.del k => cdel c k

/-- Run a sequence of recorded cache calls, in order. -/
def applyOps {V : Type} (c : CacheMap V) (ops : List (CacheOp V)) : CacheMap V :=
  ops.foldl applyOp c

/-- UserCacher.userset: this.cache.set(user.id, user). -/
def userset (user : User) : List (CacheOp User) :=
  [CacheOp.set user.id user]

/-- The filter test of ChannelCacher, from the source condition requiring
either no allowedtypes or indexOf(channel.type) different from -1. An absent
(undefined) filter is modelled as none and passes every type; a present array
— the empty array included, which is truthy in JavaScript, so it does not
take the no-filter branch — passes exactly the types it contains. -/
def channelMatches (allowedtypes : Option (List Int)) (t : Int) : Bool :=
  match allowedtypes with
  | none => true
  | some l => l.contains t

/-- ChannelCacher.cacheset: set the channel under its id when the filter test
passes, otherwise do nothing. -/
def cacheset (allowedtypes : Option (List Int)) (channel : Channel) : List (CacheOp Channel) :=
  if channelMatches allowedtypes channel.type then [CacheOp.set channel.id channel] else []

/-- ChannelCacher.cachedel: delete the entry under the channel id when the
filter test passes, otherwise do nothing. -/
def cachedel (allowedtypes : Option (List Int)) (channel : Channel) : List (CacheOp Channel) :=
  if channelMatches allowedtypes channel.type then [CacheOp.del channel.id] else []

/-- The member composite key: the template literal concatenating guild.id, a
colon and member.id. -/
def memberKey (guild : Guild) (member : Member) : String :=
  guild.id ++ ":" ++ member.id

/-- MemberCacher.memberset: set the member under its composite key. -/
def memberset (guild : Guild) (member : Member) : List (CacheOp Member) :=
  [CacheOp.set (memberKey guild member) member]

/-- MemberCacher.memberchunk: one set per member of the batch, in list order. -/
def memberchunk (guild : Guild) (members : List Member) : List (CacheOp Member) :=
  members.map (fun m => CacheOp.set (memberKey guild m) m)

/-- MemberCacher.memberdel: delete the entry under the composite key. -/
def memberdel (guild : Guild) (member : Member) : List (CacheOp Member) :=
  [CacheOp.del (memberKey guild member)]

/-- GuildCacher.guildset: set the guild under its id. -/
def guildset (guild : Guild) : List (CacheOp Guild) :=
  [CacheOp.set guild.id guild]

/-- GuildCacher.guilddel: delete the entry under the guild id. -/
def guilddel (guild : Guild) : List (CacheOp Guild) :=
  [CacheOp.del guild.id]

/-- RoleCacher.roleset: set the role under the role id; the guild argument is
received but unused in the key. -/
def roleset (_guild : Guild) (role : Role) : List (CacheOp Role) :=
  [CacheOp.set role.id role]

/-- RoleCacher.roledel: delete the entry under the role id. -/
def roledel (_guild : Guild) (role : Role) : List (CacheOp Role) :=
  [CacheOp.del role.id]

/-- Names of the client events the cachers subscribe to, from the on calls of
each setupEvents. -/
inductive EventName where
  | userUpdate
  | channelCreate
  | channelUpdate
  | channelDelete
  | guildMemberAdd
  | guildMemberUpdate
  | guildMemberChunk
  | guildMemberRemove
  | guildCreate
  | guildUpdate
  | guildDelete
  | guildRoleCreate
  | guildRoleUpdate
  | guildRoleDelete
deriving DecidableEq

/-- Identity of a handler function object as passed to on and off. In the
source every handler is an unbound class method living on the class prototype:
the expression this.userset denotes the same function object for every
instance of UserCacher, so a handler reference identifies a class method and
carries no instance identity. -/
inductive HandlerRef where
  | userset
  | cacheset
  | cachedel
  | memberset
  | memberchunk
  | memberdel
  | guildset
  | guilddel
  | roleset
  | roledel
deriving DecidableEq

/-- One listener-list entry of the client. The owner field records which cacher
instance made the on call; it is bookkeeping of the model only — matching in
off ignores it, exactly as the emitter compares listeners by function
reference alone. -/
structure Registration where
  event : EventName
  ref : HandlerRef
  owner : Nat
deriving DecidableEq

/-- Modelled from the spec: the realtime client boundary is an event emitter
whose on call appends a listener-list entry for the named event. -/
def onReg (l : List Registration) (owner : Nat) (e : EventName) (h : HandlerRef) :
    List Registration :=
  l ++ [Registration.mk e h owner]

/-- Remove the first entry satisfying the predicate, if any. -/
def removeFirst (p : Registration → Bool) : List Registration → List Registration
  | [] => []
  | r :: rs => if p r then rs else r :: removeFirst p rs

/-- Modelled from the spec: off removes at most one matching listener, found by
exact handler-reference equality for the named event; the Node event emitter
underlying the eris client searches its listener array from the end, so the
most recently added matching entry is the one removed; no match is a silent
no-op. -/
def offReg (l : List Registration) (e : EventName) (h : HandlerRef) : List Registration :=
  (removeFirst (fun r => r.event == e && r.ref == h) l.reverse).reverse

/-- One step of a constructor or close body: an on or off call against the
client, or the delegated cache close performed by SimpleCacher.close. -/
inductive ClientAction where
  | on (e : EventName) (h : HandlerRef)
  | off (e : EventName) (h : HandlerRef)
  | cacheClose
deriving DecidableEq

/-- UserCacher.constructor: store the references, then setupEvents. -/
def userCtorActions : List ClientAction :=
  [ClientAction.on EventName.userUpdate HandlerRef.userset]

/-- UserCacher.close: off userUpdate, then super.close (the cache close). -/
def userCloseActions : List ClientAction :=
  [ClientAction.off EventName.userUpdate HandlerRef.userset, ClientAction.cacheClose]

/-- ChannelCacher.constructor: store the references and the optional
allowedtypes, then setupEvents. -/
def channelCtorActions : List ClientAction :=
  [ClientAction.on EventName.channelCreate HandlerRef.cacheset,
   ClientAction.on EventName.channelUpdate HandlerRef.cacheset,
   ClientAction.on EventName.channelDelete HandlerRef.cachedel]

/-- ChannelCacher.close: the three off calls, then super.close. -/
def channelCloseActions : List ClientAction :=
  [ClientAction.off EventName.channelCreate HandlerRef.cacheset,
   ClientAction.off EventName.channelUpdate HandlerRef.cacheset,
   ClientAction.off EventName.channelDelete HandlerRef.cachedel,
   ClientAction.cacheClose]

/-- MemberCacher.constructor: store the references, then setupEvents. -/
def memberCtorActions : List ClientAction :=
  [ClientAction.on EventName.guildMemberAdd HandlerRef.memberset,
   ClientAction.on EventName.guildMemberUpdate HandlerRef.memberset,
   ClientAction.on EventName.guildMemberChunk HandlerRef.memberchunk,
   ClientAction.on EventName.guildMemberRemove HandlerRef.memberdel]

/-- MemberCacher.close: the four off calls, then super.close. -/
def memberCloseActions : List ClientAction :=
  [ClientAction.off EventName.guildMemberAdd HandlerRef.memberset,
   ClientAction.off EventName.guildMemberUpdate HandlerRef.memberset,
   ClientAction.off EventName.guildMemberChunk HandlerRef.memberchunk,
   ClientAction.off EventName.guildMemberRemove HandlerRef.memberdel,
   ClientAction.cacheClose]

/-- GuildCacher.constructor: store the references, then setupEvents. -/
def guildCtorActions : List ClientAction :=
  [ClientAction.on EventName.guildCreate HandlerRef.guildset,
   ClientAction.on EventName.guildUpdate HandlerRef.guildset,
   ClientAction.on EventName.guildDelete HandlerRef.guilddel]

/-- GuildCacher.close: the three off calls, then super.close. -/
def guildCloseActions : List ClientAction :=
  [ClientAction.off EventName.guildCreate HandlerRef.guildset,
   ClientAction.off EventName.guildUpdate HandlerRef.guildset,
   ClientAction.off EventName.guildDelete HandlerRef.guilddel,
   ClientAction.cacheClose]

/-- RoleCacher.constructor: store the references, then setupEvents. -/
def roleCtorActions : List ClientAction :=
  [ClientAction.on EventName.guildRoleCreate HandlerRef.roleset,
   ClientAction.on EventName.guildRoleUpdate HandlerRef.roleset,
   ClientAction.on EventName.guildRoleDelete HandlerRef.roledel]

/-- RoleCacher.close: the three off calls, then super.close. -/
def roleCloseActions : List ClientAction :=
  [ClientAction.off EventName.guildRoleCreate HandlerRef.roleset,
   ClientAction.off EventName.guildRoleUpdate HandlerRef.roleset,
   ClientAction.off EventName.guildRoleDelete HandlerRef.roledel,
   ClientAction.cacheClose]

/-- Interpret one action of a given cacher instance on the listener list.
cacheClose does not touch the listener list. -/
def runAction (owner : Nat) (l : List Registration) : ClientAction → List Registration
  | ClientAction.on e h => onReg l owner e h
  | ClientAction.off e h => offReg l e h
  | ClientAction.cacheClose => l

/-- Interpret a constructor or close body, in order, on the listener list. -/
def runActions (owner : Nat) (l : List Registration) (acts : List ClientAction) :
    List Registration :=
  acts.foldl (runAction owner) l

/-- The cache calls a userUpdate delivery would make were each registered
handler invoked with this bound to its cacher instance. The program does not
do this: the emitter invokes the unbound prototype methods with this set to
the client (emitUser is the faithful semantics). This counterfactual reading
is used only on listener lists emptied by close, where no handler is invoked
under either semantics and no call of any kind occurs. -/
def dispatchUser (l : List Registration) (e : EventName) (u : User) : List (CacheOp User) :=
  (l.filter fun r => r.event == e).flatMap fun r =>
    match r.ref with
    | HandlerRef.userset => userset u
    | _ => []

/-- The cache calls a channel event delivery would make were each registered
handler invoked with this bound to a cacher instance capturing allowedtypes.
The program does not do this: the emitter invokes the unbound prototype
methods with this = client, which reads no captured filter (emitChannel is
the faithful semantics). Used only on listener lists emptied by close, where
no handler is invoked under either semantics. -/
def dispatchChannel (allowedtypes : Option (List Int)) (l : List Registration)
    (e : EventName) (ch : Channel) : List (CacheOp Channel) :=
  (l.filter fun r => r.event == e).flatMap fun r =>
    match r.ref with
    | HandlerRef.cacheset => cacheset allowedtypes ch
    | HandlerRef.cachedel => cachedel allowedtypes ch
    | _ => []

/-- The cache calls a member event delivery would make were each registered
handler invoked with this bound to its cacher instance; the real dispatched
handlers run with this = client (emitMember is the faithful semantics). Used
only on listener lists emptied by close, where no handler is invoked under
either semantics. -/
def dispatchMember (l : List Registration) (e : EventName) (g : Guild) (m : Member)
    (ms : List Member) : List (CacheOp Member) :=
  (l.filter fun r => r.event == e).flatMap fun r =>
    match r.ref with
    | HandlerRef.memberset => memberset g m
    | HandlerRef.memberchunk => memberchunk g ms
    | HandlerRef.memberdel => memberdel g m
    | _ => []

/-- The cache calls a guild event delivery would make were each registered
handler invoked with this bound to its cacher instance; the real dispatched
handlers run with this = client (emitGuild is the faithful semantics). Used
only on listener lists emptied by close, where no handler is invoked under
either semantics. -/
def dispatchGuild (l : List Registration) (e : EventName) (g : Guild) :
    List (CacheOp Guild) :=
  (l.filter fun r => r.event == e).flatMap fun r =>
    match r.ref with
    | HandlerRef.guildset => guildset g
    | HandlerRef.guilddel => guilddel g
    | _ => []

/-- The cache calls a role event delivery would make were each registered
handler invoked with this bound to its cacher instance; the real dispatched
handlers run with this = client (emitRole is the faithful semantics). Used
only on listener lists emptied by close, where no handler is invoked under
either semantics. -/
def dispatchRole (l : List Registration) (e : EventName) (g : Guild) (ro : Role) :
    List (CacheOp Role) :=
  (l.filter fun r => r.event == e).flatMap fun r =>
    match r.ref with
    | HandlerRef.roleset => roleset g ro
    | HandlerRef.roledel => roledel g ro
    | _ => []

/-- The this value a handler body observes when invoked. A direct method call
on a cacher instance binds this to the instance, whose fields of type A are
then readable; the emitter, invoking a registered unbound prototype method,
substitutes itself — the client — which carries none of the cacher fields, so
on it every cacher-field read yields undefined. -/
inductive JsThis (A : Type) where
  | inst (fields : A)
  | client

/-- Outcome of one handler invocation: the body completed, having made the
listed cache calls, or it threw a TypeError (a member access on undefined),
having made the listed cache calls before the throw. -/
inductive HandlerOutcome (V : Type) where
  | completed (ops : List (CacheOp V))
  | typeError (ops : List (CacheOp V))
deriving DecidableEq

/-- UserCacher.userset as invoked. Bound to an instance, the body performs
this.cache.set(user.id, user); invoked with this = client, this.cache is
undefined and the .set access throws before any cache call. -/
def usersetRun (self : JsThis Unit) (user : User) : HandlerOutcome User :=
  match self with
  | JsThis.inst _ => HandlerOutcome.completed (userset user)
  | JsThis.client => HandlerOutcome.typeError []

/-- ChannelCacher.cacheset as invoked. Bound to an instance, the condition
reads the instance allowedtypes and a passing channel is set. Invoked with
this = client, this.allowedtypes is undefined — the negation of undefined is
true, so the no-filter branch is taken without consulting any captured
filter — and the body then throws a TypeError at this.cache.set before any
cache call. -/
def cachesetRun (self : JsThis (Option (List Int))) (channel : Channel) :
    HandlerOutcome Channel :=
  match self with
  | JsThis.inst allowedtypes => HandlerOutcome.completed (cacheset allowedtypes channel)
  | JsThis.client => HandlerOutcome.typeError []

/-- ChannelCacher.cachedel as invoked; same receiver behavior as cacheset,
throwing at this.cache.delete when this = client. -/
def cachedelRun (self : JsThis (Option (List Int))) (channel : Channel) :
    HandlerOutcome Channel :=
  match self with
  | JsThis.inst allowedtypes => HandlerOutcome.completed (cachedel allowedtypes channel)
  | JsThis.client => HandlerOutcome.typeError []

/-- MemberCacher.memberset as invoked: set under the composite key when bound,
TypeError at this.cache.set when this = client. -/
def membersetRun (self : JsThis Unit) (guild : Guild) (member : Member) :
    HandlerOutcome Member :=
  match self with
  | JsThis.inst _ => HandlerOutcome.completed (memberset guild member)
  | JsThis.client => HandlerOutcome.typeError []

/-- MemberCacher.memberchunk as invoked. Bound, it sets every member of the
batch in order. Invoked with this = client, the loop throws a TypeError at
the first this.cache.set; a chunk with no members runs the loop body zero
times and completes without any cache call. -/
def memberchunkRun (self : JsThis Unit) (guild : Guild) (members : List Member) :
    HandlerOutcome Member :=
  match self with
  | JsThis.inst _ => HandlerOutcome.completed (memberchunk guild members)
  | JsThis.client =>
      match members with
      | [] => HandlerOutcome.completed []
      | _ :: _ => HandlerOutcome.typeError []

/-- MemberCacher.memberdel as invoked: delete under the composite key when
bound, TypeError at this.cache.delete when this = client. -/
def memberdelRun (self : JsThis Unit) (guild : Guild) (member : Member) :
    HandlerOutcome Member :=
  match self with
  | JsThis.inst _ => HandlerOutcome.completed (memberdel guild member)
  | JsThis.client => HandlerOutcome.typeError []

/-- GuildCacher.guildset as invoked: set under the guild id when bound,
TypeError at this.cache.set when this = client. -/
def guildsetRun (self : JsThis Unit) (guild : Guild) : HandlerOutcome Guild :=
  match self with
  | JsThis.inst _ => HandlerOutcome.completed (guildset guild)
  | JsThis.client => HandlerOutcome.typeError []

/-- GuildCacher.guilddel as invoked: delete under the guild id when bound,
TypeError at this.cache.delete when this = client. -/
def guilddelRun (self : JsThis Unit) (guild : Guild) : HandlerOutcome Guild :=
  match self with
  | JsThis.inst _ => HandlerOutcome.completed (guilddel guild)
  | JsThis.client => HandlerOutcome.typeError []

/-- RoleCacher.roleset as invoked: set under the role id when bound,
TypeError at this.cache.set when this = client. -/
def rolesetRun (self : JsThis Unit) (guild : Guild) (role : Role) : HandlerOutcome Role :=
  match self with
  | JsThis.inst _ => HandlerOutcome.completed (roleset guild role)
  | JsThis.client => HandlerOutcome.typeError []

/-- RoleCacher.roledel as invoked: delete under the role id when bound,
TypeError at this.cache.delete when this = client. -/
def roledelRun (self : JsThis Unit) (guild : Guild) (role : Role) : HandlerOutcome Role :=
  match self with
  | JsThis.inst _ => HandlerOutcome.completed (roledel guild role)
  | JsThis.client => HandlerOutcome.typeError []

/-- Delivery of an event carrying a user payload, as the program performs it:
the emitter invokes each listener registered under the event with this set to
itself — the client — because the registered handlers are unbound prototype
methods carrying no instance binding. One outcome per invoked listener, in
registration order. A registration of another class's handler never occurs in
the listener lists built in this file; its body would likewise begin with a
this.cache access on the client and is recorded as throwing. -/
def emitUser (l : List Registration) (e : EventName) (u : User) :
    List (HandlerOutcome User) :=
  (l.filter fun r => r.event == e).map fun r =>
    match r.ref with
    | HandlerRef.userset => usersetRun JsThis.client u
    | _ => HandlerOutcome.typeError []

/-- Delivery of an event carrying a channel payload, as the program performs
it: the dispatched handlers run with this = client, so no captured filter is
available to them and this function takes none. -/
def emitChannel (l : List Registration) (e : EventName) (ch : Channel) :
    List (HandlerOutcome Channel) :=
  (l.filter fun r => r.event == e).map fun r =>
    match r.ref with
    | HandlerRef.cacheset => cachesetRun JsThis.client ch
    | HandlerRef.cachedel => cachedelRun JsThis.client ch
    | _ => HandlerOutcome.typeError []

/-- Delivery of a member event, as the program performs it (this = client for
every dispatched handler). The add, update and remove events carry g and m;
the chunk event carries g and the batch ms. -/
def emitMember (l : List Registration) (e : EventName) (g : Guild) (m : Member)
    (ms : List Member) : List (HandlerOutcome Member) :=
  (l.filter fun r => r.event == e).map fun r =>
    match r.ref with
    | HandlerRef.memberset => membersetRun JsThis.client g m
    | HandlerRef.memberchunk => memberchunkRun JsThis.client g ms
    | HandlerRef.memberdel => memberdelRun JsThis.client g m
    | _ => HandlerOutcome.typeError []

/-- Delivery of an event carrying a guild payload, as the program performs it
(this = client for every dispatched handler). -/
def emitGuild (l : List Registration) (e : EventName) (g : Guild) :
    List (HandlerOutcome Guild) :=
  (l.filter fun r => r.event == e).map fun r =>
    match r.ref with
    | HandlerRef.guildset => guildsetRun JsThis.client g
    | HandlerRef.guilddel => guilddelRun JsThis.client g
    | _ => HandlerOutcome.typeError []

/-- Delivery of an event carrying a guild and a role payload, as the program
performs it (this = client for every dispatched handler). -/
def emitRole (l : List Registration) (e : EventName) (g : Guild) (ro : Role) :
    List (HandlerOutcome Role) :=
  (l.filter fun r => r.event == e).map fun r =>
    match r.ref with
    | HandlerRef.roleset => rolesetRun JsThis.client g ro
    | HandlerRef.roledel => roledelRun JsThis.client g ro
    | _ => HandlerOutcome.typeError []

/-- The cache calls one invocation actually made (before any throw). -/
def outcomeOps {V : Type} : HandlerOutcome V → List (CacheOp V)
  | HandlerOutcome.completed ops => ops
  | HandlerOutcome.typeError ops => ops

/-- The cache calls an emission actually made, across its invocations. -/
def opsPerformed {V : Type} (outcomes : List (HandlerOutcome V)) : List (CacheOp V) :=
  outcomes.flatMap outcomeOps

/-- Test for an invocation that ended in a thrown TypeError. -/
def isThrownOutcome {V : Type} : HandlerOutcome V → Bool
  | HandlerOutcome.typeError _ => true
  | HandlerOutcome.completed _ => false

/-- Test for an off step of a constructor or close body. -/
def isOffStep : ClientAction → Bool
  | ClientAction.off _ _ => true
  | _ => false

/-- Test for an on step of a constructor or close body. -/
def isOnStep : ClientAction → Bool
  | ClientAction.on _ _ => true
  | _ => false

/-- The off call that detaches a given on call: same event, same handler
reference. -/
def onToOff : ClientAction → ClientAction
  | ClientAction.on e h => ClientAction.off e h
  | a => a

theorem applyOps_nil {V : Type} (c : CacheMap V) : applyOps c [] = c := rfl

theorem applyOps_cons {V : Type} (c : CacheMap V) (op : CacheOp V) (ops : List (CacheOp V)) :
    applyOps c (op :: ops) = applyOps (applyOp c op) ops := rfl

theorem cget_cset_same {V : Type} (c : CacheMap V) (k : String) (v : V) :
    cget (cset c k v) k = some v := by
  simp [cset, cget]

theorem cget_cdel_self {V : Type} (c : CacheMap V) (k : String) :
    cget (cdel c k) k = none := by
  induction c with
  | nil => rfl
  | cons kv rest ih =>
      by_cases hk : kv.1 = k
      · simp [cdel, hk, ih]
      · simp [cdel, cget, hk, ih]

theorem cget_cdel_ne {V : Type} (c : CacheMap V) (k j : String) (h : j ≠ k) :
    cget (cdel c k) j = cget c j := by
  induction c with
  | nil => rfl
  | cons kv rest ih =>
      by_cases hk : kv.1 = k
      · have hkj : k ≠ j := fun hj => h hj.symm
        simp [cdel, cget, hk, hkj, ih]
      · simp only [cdel, hk, if_neg hk, cget]
        by_cases hj : kv.1 = j
        · simp [hj]
        · simp [hj, ih]

theorem cget_cset_ne {V : Type} (c : CacheMap V) (k j : String) (v : V) (h : j ≠ k) :
    cget (cset c k v) j = cget c j := by
  have hkj : k ≠ j := fun hkj => h hkj.symm
  simp [cset, cget, hkj, cget_cdel_ne c k j h]

theorem cdel_of_cget_none {V : Type} (c : CacheMap V) (k : String) (h : cget c k = none) :
    cdel c k = c := by
  induction c with
  | nil => rfl
  | cons kv rest ih =>
      by_cases hk : kv.1 = k
      · simp [cget, hk] at h
      · simp only [cget, hk, if_neg hk] at h
        simp [cdel, hk, ih h]

theorem length_cset_of_none {V : Type} (c : CacheMap V) (k : String) (v : V)
    (h : cget c k = none) : (cset c k v).length = c.length + 1 := by
  simp [cset, cdel_of_cget_none c k h]

/-- Claim C1: two UserCacher instances, instance 0 first and instance 1
second, are constructed on one shared client; instance 0 then closes.
Both constructions registered the one shared prototype method as their
handler reference, so the off call of instance 0 removes the most recently
added matching listener entry — the registration instance 1 made — and the
entry instance 0 made survives. The claim that closing one instance never
detaches a registration belonging to the other is therefore false on the
code. -/
theorem C1_close_detaches_registration_of_other_instance :
    runActions 0 (runActions 1 (runActions 0 [] userCtorActions) userCtorActions)
      userCloseActions
      = [Registration.mk EventName.userUpdate HandlerRef.userset 0] := by
  simp [runActions, runAction, onReg, offReg, removeFirst, userCtorActions, userCloseActions]

/-- Claim C2, evaluated on the program: after construction, emitting a
create/update-style event dispatches the unbound handler with this = client;
every such invocation throws a TypeError having made no cache call, so the
cache never comes to contain the payload and get at the derived key is
unchanged — for every class and every payload. -/
theorem C2_create_update_event_throws_and_stores_nothing :
    (∀ (o : Nat) (u : User),
        emitUser (runActions o [] userCtorActions) EventName.userUpdate u
          = [HandlerOutcome.typeError []])
  ∧ (∀ (o : Nat) (g : Guild) (m : Member) (ms : List Member),
        emitMember (runActions o [] memberCtorActions) EventName.guildMemberAdd g m ms
          = [HandlerOutcome.typeError []]
        ∧ emitMember (runActions o [] memberCtorActions) EventName.guildMemberUpdate g m ms
          = [HandlerOutcome.typeError []])
  ∧ (∀ (o : Nat) (g : Guild),
        emitGuild (runActions o [] guildCtorActions) EventName.guildCreate g
          = [HandlerOutcome.typeError []]
        ∧ emitGuild (runActions o [] guildCtorActions) EventName.guildUpdate g
          = [HandlerOutcome.typeError []])
  ∧ (∀ (o : Nat) (g : Guild) (ro : Role),
        emitRole (runActions o [] roleCtorActions) EventName.guildRoleCreate g ro
          = [HandlerOutcome.typeError []]
        ∧ emitRole (runActions o [] roleCtorActions) EventName.guildRoleUpdate g ro
          = [HandlerOutcome.typeError []])
  ∧ (∀ (o : Nat) (ch : Channel),
        emitChannel (runActions o [] channelCtorActions) EventName.channelCreate ch
          = [HandlerOutcome.typeError []]
        ∧ emitChannel (runActions o [] channelCtorActions) EventName.channelUpdate ch
          = [HandlerOutcome.typeError []])
  ∧ (∀ (o : Nat) (u : User) (c : CacheMap User),
        cget (applyOps c (opsPerformed (emitUser (runActions o [] userCtorActions)
          EventName.userUpdate u))) u.id = cget c u.id) :=
  ⟨fun _ _ => rfl, fun _ _ _ _ => ⟨rfl, rfl⟩, fun _ _ => ⟨rfl, rfl⟩,
   fun _ _ _ => ⟨rfl, rfl⟩, fun _ _ => ⟨rfl, rfl⟩, fun _ _ _ => rfl⟩

/-- Claim C4, evaluated on the program: no channel event is ever applied to
the cache. The dispatched handlers read this.allowedtypes on the client —
undefined, so the membership test against the constructed filter never runs —
and then throw at this.cache.set or this.cache.delete. In particular, with
the constructed filter containing exactly 0, a type-0 channelCreate does not
appear in the cache, against the claim. -/
theorem C4_channel_event_never_applied_filter_never_tested :
    (∀ (o : Nat) (ch : Channel),
        emitChannel (runActions o [] channelCtorActions) EventName.channelCreate ch
          = [HandlerOutcome.typeError []]
        ∧ emitChannel (runActions o [] channelCtorActions) EventName.channelUpdate ch
          = [HandlerOutcome.typeError []]
        ∧ emitChannel (runActions o [] channelCtorActions) EventName.channelDelete ch
          = [HandlerOutcome.typeError []])
  ∧ (∀ (o : Nat) (e : EventName) (ch : Channel) (c : CacheMap Channel),
        applyOps c (opsPerformed
          (emitChannel (runActions o [] channelCtorActions) e ch)) = c)
  ∧ cget (applyOps ([] : CacheMap Channel)
        (opsPerformed (emitChannel (runActions 0 [] channelCtorActions)
          EventName.channelCreate (Channel.mk "c0" 0 "x")))) "c0" = none := by
  refine ⟨fun _ _ => ⟨rfl, rfl, rfl⟩, ?_, rfl⟩
  intro o e ch c
  cases e <;> rfl

/-- Claim C5, evaluated on the program: guildMemberAdd, guildMemberUpdate and
any nonempty guildMemberChunk dispatch handlers that throw a TypeError at the
first this.cache.set (this = client), so nothing is stored: get at the
composite key guild123:member456 after guildMemberAdd(guild123, member456)
still reflects absence, and a chunk of two members yields zero entries, not
two. A chunk with no members runs its loop zero times and completes without
any cache call. -/
theorem C5_member_events_throw_and_store_nothing :
    (∀ (o : Nat) (g : Guild) (m : Member) (ms : List Member),
        emitMember (runActions o [] memberCtorActions) EventName.guildMemberAdd g m ms
          = [HandlerOutcome.typeError []])
  ∧ (∀ (o : Nat) (g : Guild) (m x : Member) (ms : List Member),
        emitMember (runActions o [] memberCtorActions)
          EventName.guildMemberChunk g m (x :: ms)
          = [HandlerOutcome.typeError []])
  ∧ (∀ (o : Nat) (g : Guild) (m : Member),
        emitMember (runActions o [] memberCtorActions) EventName.guildMemberChunk g m []
          = [HandlerOutcome.completed []])
  ∧ cget (applyOps ([] : CacheMap Member)
        (opsPerformed (emitMember (runActions 0 [] memberCtorActions)
          EventName.guildMemberAdd (Guild.mk "guild123" "gd")
          (Member.mk "member456" "md") [])))
        "guild123:member456" = none
  ∧ (applyOps ([] : CacheMap Member)
        (opsPerformed (emitMember (runActions 0 [] memberCtorActions)
          EventName.guildMemberChunk (Guild.mk "guild123" "gd") (Member.mk "member456" "md")
          [Member.mk "m1" "a", Member.mk "m2" "b"]))).length = 0 :=
  ⟨fun _ _ _ _ => rfl, fun _ _ _ _ _ => rfl, fun _ _ _ => rfl, rfl, rfl⟩

/-- Claim C6, evaluated on the program: every delete-style emission dispatches
its handler with this = client and throws a TypeError at this.cache.delete,
removing nothing — a previously set entry survives the delete event, and even
the absent-key emission raises rather than being a silent no-op. -/
theorem C6_delete_event_throws_and_removes_nothing :
    (∀ (o : Nat) (g : Guild) (m : Member) (ms : List Member),
        emitMember (runActions o [] memberCtorActions) EventName.guildMemberRemove g m ms
          = [HandlerOutcome.typeError []])
  ∧ (∀ (o : Nat) (g : Guild),
        emitGuild (runActions o [] guildCtorActions) EventName.guildDelete g
          = [HandlerOutcome.typeError []])
  ∧ (∀ (o : Nat) (g : Guild) (ro : Role),
        emitRole (runActions o [] roleCtorActions) EventName.guildRoleDelete g ro
          = [HandlerOutcome.typeError []])
  ∧ (∀ (o : Nat) (ch : Channel),
        emitChannel (runActions o [] channelCtorActions) EventName.channelDelete ch
          = [HandlerOutcome.typeError []])
  ∧ (∀ (o : Nat) (g : Guild) (m : Member) (ms : List Member) (c : CacheMap Member),
        cget (applyOps c (opsPerformed (emitMember (runActions o [] memberCtorActions)
          EventName.guildMemberRemove g m ms))) (memberKey g m)
          = cget c (memberKey g m)) :=
  ⟨fun _ _ _ _ => rfl, fun _ _ => rfl, fun _ _ _ => rfl, fun _ _ => rfl,
   fun _ _ _ _ _ => rfl⟩

/-- Claim C8, evaluated on the program: the filter captured at construction is
never the value deciding any event. Every dispatched cacheset or cachedel
invocation is the constant TypeError outcome — this.allowedtypes reads
undefined on the client, the no-filter branch is taken, and the cache access
throws — so all three channel events throw for every channel, and a
previously cached entry survives every later delete emission, but because the
delete throws, not because any filter blocks it. -/
theorem C8_captured_filter_never_consulted_at_dispatch :
    (∀ ch : Channel,
        cachesetRun JsThis.client ch = HandlerOutcome.typeError []
        ∧ cachedelRun JsThis.client ch = HandlerOutcome.typeError [])
  ∧ (∀ (o : Nat) (ch : Channel),
        emitChannel (runActions o [] channelCtorActions) EventName.channelCreate ch
          = [HandlerOutcome.typeError []]
        ∧ emitChannel (runActions o [] channelCtorActions) EventName.channelUpdate ch
          = [HandlerOutcome.typeError []]
        ∧ emitChannel (runActions o [] channelCtorActions) EventName.channelDelete ch
          = [HandlerOutcome.typeError []])
  ∧ (∀ (o : Nat) (ch : Channel) (c : CacheMap Channel) (k : String),
        cget (applyOps c (opsPerformed (emitChannel (runActions o [] channelCtorActions)
          EventName.channelDelete ch))) k = cget c k) :=
  ⟨fun _ => ⟨rfl, rfl⟩, fun _ _ => ⟨rfl, rfl, rfl⟩, fun _ _ _ _ => rfl⟩

/-- Counterexample to claim C9 as stated: for a ChannelCacher constructed with
the empty allowed-types list, a dispatched channelCreate is not cleanly
ignored — the dispatched handler never reads the captured empty list (this is
the client, whose allowedtypes is undefined) and throws a TypeError at the
cache access. The clean no-call completion the claim describes is what only a
call bound to the instance holding the empty list would produce, as the last
conjunct contrasts. -/
theorem C9_empty_filter_event_not_cleanly_ignored :
    emitChannel (runActions 0 [] channelCtorActions) EventName.channelCreate
        (Channel.mk "c9" 3 "x")
      ≠ [HandlerOutcome.completed []]
    ∧ emitChannel (runActions 0 [] channelCtorActions) EventName.channelCreate
        (Channel.mk "c9" 3 "x")
      = [HandlerOutcome.typeError []]
    ∧ cachesetRun (JsThis.inst (some [])) (Channel.mk "c9" 3 "x")
      = HandlerOutcome.completed [] := by
  refine ⟨?_, rfl, rfl⟩
  intro h
  simp [emitChannel, runActions, runAction, onReg, channelCtorActions, cachesetRun] at h

/-- Claim C9 (amended): for a ChannelCacher constructed with an empty
allowed-types list — as for any captured filter — no channel event is ever
applied to the cache, but not by the empty list being consulted: every
dispatched invocation of the three subscribed events ends in a thrown
TypeError after the no-filter branch, performing no cache call, so the cache
is unchanged by every emission. -/
theorem C9_no_event_applied_but_error_raised :
    (∀ (o : Nat) (e : EventName) (ch : Channel) (c : CacheMap Channel),
        applyOps c (opsPerformed
          (emitChannel (runActions o [] channelCtorActions) e ch)) = c)
  ∧ (∀ (o : Nat) (ch : Channel),
        (emitChannel (runActions o [] channelCtorActions)
          EventName.channelCreate ch).all isThrownOutcome
        ∧ (emitChannel (runActions o [] channelCtorActions)
          EventName.channelUpdate ch).all isThrownOutcome
        ∧ (emitChannel (runActions o [] channelCtorActions)
          EventName.channelDelete ch).all isThrownOutcome) := by
  constructor
  · intro o e ch c
    cases e <;> rfl
  · exact fun _ _ => ⟨rfl, rfl, rfl⟩

/-- Claim C3: for each cacher class, constructing one instance and then
closing it leaves an empty listener list, so emitting any event afterwards
dispatches no handler and performs no cache call; and each close body invokes
the delegated cache close exactly once. -/
theorem C3_after_close_no_mutation_and_one_cache_close :
    (∀ o : Nat, runActions o (runActions o [] userCtorActions) userCloseActions = [])
  ∧ (∀ o : Nat, runActions o (runActions o [] channelCtorActions) channelCloseActions = [])
  ∧ (∀ o : Nat, runActions o (runActions o [] memberCtorActions) memberCloseActions = [])
  ∧ (∀ o : Nat, runActions o (runActions o [] guildCtorActions) guildCloseActions = [])
  ∧ (∀ o : Nat, runActions o (runActions o [] roleCtorActions) roleCloseActions = [])
  ∧ (∀ (o : Nat) (e : EventName) (u : User),
      dispatchUser (runActions o (runActions o [] userCtorActions) userCloseActions) e u
        = [])
  ∧ (∀ (o : Nat) (allowed : Option (List Int)) (e : EventName) (ch : Channel),
      dispatchChannel allowed
        (runActions o (runActions o [] channelCtorActions) channelCloseActions) e ch
        = [])
  ∧ (∀ (o : Nat) (e : EventName) (g : Guild) (m : Member) (ms : List Member),
      dispatchMember (runActions o (runActions o [] memberCtorActions) memberCloseActions)
        e g m ms = [])
  ∧ (∀ (o : Nat) (e : EventName) (g : Guild),
      dispatchGuild (runActions o (runActions o [] guildCtorActions) guildCloseActions) e g
        = [])
  ∧ (∀ (o : Nat) (e : EventName) (g : Guild) (ro : Role),
      dispatchRole (runActions o (runActions o [] roleCtorActions) roleCloseActions) e g ro
        = [])
  ∧ userCloseActions.count ClientAction.cacheClose = 1
  ∧ channelCloseActions.count ClientAction.cacheClose = 1
  ∧ memberCloseActions.count ClientAction.cacheClose = 1
  ∧ guildCloseActions.count ClientAction.cacheClose = 1
  ∧ roleCloseActions.count ClientAction.cacheClose = 1 := by
  refine ⟨?_, ?_, ?_, ?_, ?_, ?_, ?_, ?_, ?_, ?_, ?_, ?_, ?_, ?_, ?_⟩ <;>
    intros <;>
    simp [runActions, runAction, onReg, offReg, removeFirst, List.count_cons, List.count_nil,
      dispatchUser, dispatchChannel, dispatchMember, dispatchGuild, dispatchRole,
      userCtorActions, userCloseActions, channelCtorActions, channelCloseActions,
      memberCtorActions, memberCloseActions, guildCtorActions, guildCloseActions,
      roleCtorActions, roleCloseActions]

/-- Claim C7: every close body is exactly the off calls undoing that class's
own on calls, in order, followed last by the single delegated cache close, so
listener detachment is complete before the cache close runs. -/
theorem C7_detach_all_handlers_then_close_cache :
    (userCloseActions.dropLast = userCtorActions.map onToOff
      ∧ userCloseActions.dropLast.all isOffStep
      ∧ userCloseActions.getLast? = some ClientAction.cacheClose)
  ∧ (channelCloseActions.dropLast = channelCtorActions.map onToOff
      ∧ channelCloseActions.dropLast.all isOffStep
      ∧ channelCloseActions.getLast? = some ClientAction.cacheClose)
  ∧ (memberCloseActions.dropLast = memberCtorActions.map onToOff
      ∧ memberCloseActions.dropLast.all isOffStep
      ∧ memberCloseActions.getLast? = some ClientAction.cacheClose)
  ∧ (guildCloseActions.dropLast = guildCtorActions.map onToOff
      ∧ guildCloseActions.dropLast.all isOffStep
      ∧ guildCloseActions.getLast? = some ClientAction.cacheClose)
  ∧ (roleCloseActions.dropLast = roleCtorActions.map onToOff
      ∧ roleCloseActions.dropLast.all isOffStep
      ∧ roleCloseActions.getLast? = some ClientAction.cacheClose) := by
  simp [userCtorActions, userCloseActions, channelCtorActions, channelCloseActions,
    memberCtorActions, memberCloseActions, guildCtorActions, guildCloseActions,
    roleCtorActions, roleCloseActions, onToOff, isOffStep]

/-- Claim C10: every constructor body, beyond storing the cache, client and
optional filter references, consists only of on registrations — no cache
call of any kind appears. -/
theorem C10_constructor_performs_no_cache_operation :
    userCtorActions.all isOnStep
  ∧ channelCtorActions.all isOnStep
  ∧ memberCtorActions.all isOnStep
  ∧ guildCtorActions.all isOnStep
  ∧ roleCtorActions.all isOnStep := by
  simp [userCtorActions, channelCtorActions, memberCtorActions, guildCtorActions,
    roleCtorActions, isOnStep]
